import Mathlib

/-!
Verification of `jenkins_jobs/modules/hipchat_notif.py` (the HipChat
notification module of jenkins-job-builder).

The module is embedded shallowly:

* the XML document (`xml.etree.ElementTree` elements) becomes `XmlNode`,
  and in-place mutation becomes explicit tree rebuilding;
* the per-job `hipchat` mapping becomes `HipchatConfig` (recognized keys as
  `Option` fields; `extra_keys` records the presence of unrecognized keys,
  which matters only for Python dict truthiness);
* the `HipChat` instance attributes (`authToken`, `jenkinsUrl`, `sendAs`)
  become `HState`;
* the global config object (`six.moves.configparser`) becomes
  `GlobalConfig`, with `configGet` modelling `ConfigParser.get`, which
  raises `NoSectionError` for a missing section and `NoOptionError` for a
  missing option of an existing section;
* `sys.exit(1)` and exceptions escaping `gen_xml` become the `GenOutcome`
  (resp. `LoadResult`) of the translation, alongside the mutated tree.
-/

/-- An XML element: tag, optional text, list of children
(`xml.etree.ElementTree.Element`). -/
structure XmlNode where
  tag : String
  text : Option String
  children : List XmlNode
deriving Repr

/-- First direct child with the given tag: `parent.find(tag)`. -/
def findTag : List XmlNode → String → Option XmlNode
  | [], _ => none
  | x :: xs, t => if x.tag = t then some x else findTag xs t

/-- `XML.SubElement(n, c.tag)` followed by filling `c` in: append a child. -/
def appendChild (n : XmlNode) (c : XmlNode) : XmlNode :=
  { n with children := n.children ++ [c] }

/-- Append `c` under the first child tagged `t`, creating that section at the
end when absent.  This embeds the pattern at lines 110-113 and 127-130 of the
source: `find` the section, `XML.SubElement(xml_parent, t)` when `None`, then
`XML.SubElement(section, ...)`. -/
def appendIntoFirst : List XmlNode → String → XmlNode → List XmlNode
  | [], t, c => [⟨t, none, [c]⟩]
  | x :: xs, t, c =>
      if x.tag = t then appendChild x c :: xs else x :: appendIntoFirst xs t c

/-- `appendIntoFirst` applied at a parent node. -/
def appendUnder (parent : XmlNode) (t : String) (c : XmlNode) : XmlNode :=
  { parent with children := appendIntoFirst parent.children t c }

/-- Children of the first section tagged `t` (empty list when the section is
absent). -/
def sectionChildren (n : XmlNode) (t : String) : List XmlNode :=
  ((findTag n.children t).map XmlNode.children).getD []

/-- Last child of the first section tagged `t`. -/
def lastChildOfSection (n : XmlNode) (t : String) : Option XmlNode :=
  (findTag n.children t).bind (fun s => s.children.getLast?)

/-- Whether `n` has a direct child tagged `t`. -/
def hasChildTag (n : XmlNode) (t : String) : Bool :=
  (findTag n.children t).isSome

/-- The per-job `hipchat` mapping.  Recognized keys are `Option` fields
(`none` = key absent); `extra_keys` lists unrecognized keys, which only
affect Python dict truthiness (`not hipchat`). -/
structure HipchatConfig where
  enabled : Option Bool
  room : Option String
  rooms : Option (List String)
  start_notify : Option Bool
  notify_success : Option Bool
  notify_aborted : Option Bool
  notify_not_built : Option Bool
  notify_unstable : Option Bool
  notify_failure : Option Bool
  notify_back_to_normal : Option Bool
  extra_keys : List String
deriving Repr

/-- Python dict truthiness of the `hipchat` mapping: non-empty. -/
def pyTruthyConfig (h : HipchatConfig) : Bool :=
  h.enabled.isSome || h.room.isSome || h.rooms.isSome ||
  h.start_notify.isSome || h.notify_success.isSome || h.notify_aborted.isSome ||
  h.notify_not_built.isSome || h.notify_unstable.isSome ||
  h.notify_failure.isSome || h.notify_back_to_normal.isSome ||
  !h.extra_keys.isEmpty

/-- Python truthiness of `hipchat.get(key)` for a boolean-valued key:
`None` is falsy, a bool is itself.  Also equals `hipchat.get(key, False)`. -/
def pyGetBool (v : Option Bool) : Bool := v.getD false

/-- `str(b).lower()` for a Python bool. -/
def pyBoolStr (b : Bool) : String := if b then "true" else "false"

/-- Python truthiness of the cached `self.authToken` (`None` and `''` are
falsy). -/
def pyTruthyOptStr : Option String → Bool
  | none => false
  | some s => !(s == "")

/-- The `HipChat` instance state set in `__init__` and `_load_global_data`. -/
structure HState where
  authToken : Option String
  jenkinsUrl : Option String
  sendAs : Option String
deriving Repr, DecidableEq

/-- `HipChat.__init__`: `authToken = None`, `jenkinsUrl = None`
(`sendAs` not yet set). -/
def initState : HState := ⟨none, none, none⟩

/-- The global configuration store: named sections of key/value options. -/
structure GlobalConfig where
  sections : List (String × List (String × String))

/-- The two `configparser` lookup errors `ConfigParser.get` can raise. -/
inductive CPError where
  | noSection
  | noOption
deriving Repr, DecidableEq

/-- `ConfigParser.get(section, option)`: `NoSectionError` when the section is
absent, `NoOptionError` when the option is absent from an existing section. -/
def configGet (gc : GlobalConfig) (s o : String) : Except CPError String :=
  match gc.sections.find? (fun p => p.1 == s) with
  | none => .error .noSection
  | some sec =>
    match sec.2.find? (fun p => p.1 == o) with
    | none => .error .noOption
    | some opt => .ok opt.2

/-- Outcome of `_load_global_data`: normal return with the updated instance
state, `sys.exit(1)`, or a `configparser` error escaping the method. -/
inductive LoadResult where
  | ok (st : HState)
  | fatalExit
  | uncaught (e : CPError) (st : HState)
deriving Repr, DecidableEq

/-- `HipChat._load_global_data` (lines 83-102).  When the cached token is
truthy, the whole body is skipped.  Otherwise the `try` block reads
`[hipchat] authtoken`; `NoSectionError` and the blank-token
`JenkinsJobsException` are caught and become `sys.exit(1)` (`fatalExit`);
`NoOptionError` escapes uncaught.  The `[jenkins] url` and `[hipchat]
send-as` reads are OUTSIDE the `try`, so their errors also escape. -/
def load_global_data (st : HState) (gc : GlobalConfig) : LoadResult :=
  if pyTruthyOptStr st.authToken then .ok st
  else
    match configGet gc "hipchat" "authtoken" with
    | .error .noSection => .fatalExit
    | .error .noOption => .uncaught .noOption st
    | .ok tok =>
      if tok = "" then .fatalExit
      else
        let st1 : HState := { st with authToken := some tok }
        match configGet gc "jenkins" "url" with
        | .error e => .uncaught e st1
        | .ok url =>
          let st2 : HState := { st1 with jenkinsUrl := some url }
          match configGet gc "hipchat" "send-as" with
          | .error e => .uncaught e st2
          | .ok sa => .ok { st2 with sendAs := some sa }

/-- Split a character list on `.` (the character-level equivalent of
`String.splitOn "."`, written structurally so it evaluates by `rfl`). -/
def splitDots : List Char → List (List Char)
  | [] => [[]]
  | c :: cs =>
    if c = '.' then [] :: splitDots cs
    else
      match splitDots cs with
      | [] => [[c]]
      | g :: gs => (c :: g) :: gs

/-- Numeric value of a decimal component; `0` for anything that is not a
nonempty all-digit string (the value of `toNat?.getD 0` on such input). -/
def componentNat (cs : List Char) : Nat :=
  if cs ≠ [] ∧ cs.all Char.isDigit then
    cs.foldl (fun n c => n * 10 + (c.toNat - 48)) 0
  else 0

/-- Model of `pkg_resources.parse_version` restricted to dotted numeric
release strings (all versions used by the module are of this form): the list
of numeric components. -/
def parse_version (s : String) : List Nat :=
  (splitDots s.toList).map componentNat

/-- Componentwise comparison of parsed versions, missing components reading
as zero (so `0.1` equals `0.1.0`, matching `pkg_resources`). -/
def versionCmp : List Nat → List Nat → Ordering
  | [], bs => if bs.all (fun b => b == 0) then .eq else .lt
  | a :: as, [] => if (a :: as).all (fun x => x == 0) then .eq else .gt
  | a :: as, b :: bs =>
      if a < b then .lt else if b < a then .gt else versionCmp as bs

/-- `v1 >= v2` on parsed versions. -/
def versionGe (a b : List Nat) : Bool :=
  !(versionCmp a b == Ordering.lt)

/-- `plugin_info.get('version', '0')` from the plugin-metadata dictionary. -/
def pluginVersionString (plugin_info : List (String × String)) : String :=
  ((plugin_info.find? (fun p => p.1 == "version")).map (fun p => p.2)).getD "0"

/-- Baseline version of the schema migration: `"0.1.8"` (line 158). -/
def baselineVersion : List Nat := parse_version "0.1.8"

/-- Tag of the job-property node (lines 113-115). -/
def pdefhipTag : String :=
  "jenkins.plugins.hipchat.HipChatNotifier_-HipChatJobProperty"

/-- Tag of the publisher node (lines 130-131). -/
def hippubTag : String := "jenkins.plugins.hipchat.HipChatNotifier"

/-- The inner `translate_to_xml(parent, source, target, optional)`
(lines 133-137), as the list of children it appends to `parent`: the field is
written when `not optional or hipchat.get(source)` is truthy, with text
`str(hipchat.get(source, False)).lower()`. -/
def translate_to_xml (v : Option Bool) (target : String) (optional : Bool) :
    List XmlNode :=
  if !optional || pyGetBool v then [⟨target, some (pyBoolStr (pyGetBool v)), []⟩]
  else []

/-- The `yaml2xmlkeys` loop (lines 139-153) applied to one parent: the
notify-flag children appended, in dict insertion order.  `start-notify` is the
one entry with `optional = False`. -/
def notifyFields (h : HipchatConfig) : List XmlNode :=
  translate_to_xml h.start_notify "startNotification" false ++
  translate_to_xml h.notify_success "notifySuccess" true ++
  translate_to_xml h.notify_aborted "notifyAborted" true ++
  translate_to_xml h.notify_not_built "notifyNotBuilt" true ++
  translate_to_xml h.notify_unstable "notifyUnstable" true ++
  translate_to_xml h.notify_failure "notifyFailure" true ++
  translate_to_xml h.notify_back_to_normal "notifyBackToNormal" true

/-- Room resolution (lines 117-125): `'rooms' in hipchat` first (comma-join),
then `'room' in hipchat`, else `None` stands for the raised
`YAMLFormatError`. -/
def resolveRoom (h : HipchatConfig) : Option String :=
  match h.rooms with
  | some rs => some (String.intercalate "," rs)
  | none => h.room

/-- The version-gated publisher fields (lines 158-162). -/
def versionFields (v : List Nat) (st : HState) : List XmlNode :=
  if versionGe v baselineVersion then
    [⟨"buildServerUrl", st.jenkinsUrl, []⟩, ⟨"sendAs", st.sendAs, []⟩]
  else
    [⟨"jenkinsUrl", st.jenkinsUrl, []⟩]

/-- The fully built job-property node: its `room` child (lines 117-122)
followed by the notify flags the loop later appends to it (lines 149-153). -/
def pdefhipNode (h : HipchatConfig) (roomText : String) : XmlNode :=
  ⟨pdefhipTag, none, ⟨"room", some roomText, []⟩ :: notifyFields h⟩

/-- The fully built publisher node: notify flags (lines 149-153), the
version-gated server fields (lines 158-162), the `authToken` and the
duplicate `room` carrying `room.text` (lines 164-167). -/
def hippubNode (h : HipchatConfig) (v : List Nat) (st : HState)
    (roomText : String) : XmlNode :=
  ⟨hippubTag, none,
    notifyFields h ++ versionFields v st ++
    [⟨"authToken", st.authToken, []⟩, ⟨"room", some roomText, []⟩]⟩

/-- Outcome of `gen_xml`: normal return, `sys.exit(1)` from the credential
loader, a `configparser` error escaping the loader, or the `YAMLFormatError`
of lines 124-125. -/
inductive GenOutcome where
  | ok
  | fatalExit
  | uncaught (e : CPError)
  | yamlFormatError
deriving Repr, DecidableEq

/-- The body of `gen_xml` after the enabled gate (lines 108-167).  In the
source the tree is mutated in place; here the same final tree is rebuilt:
when the room resolution fails, the property node (already holding an empty
`room` child) has ALREADY been appended under `properties` when the
`YAMLFormatError` is raised, and the publishers section is untouched. -/
def gen_xml_enabled (st : HState) (gc : GlobalConfig)
    (plugin_info : List (String × String)) (hipchat : HipchatConfig)
    (xml_parent : XmlNode) : XmlNode × HState × GenOutcome :=
  match load_global_data st gc with
  | .fatalExit => (xml_parent, st, .fatalExit)
  | .uncaught e st1 => (xml_parent, st1, .uncaught e)
  | .ok st1 =>
    match resolveRoom hipchat with
    | none =>
      (appendUnder xml_parent "properties" ⟨pdefhipTag, none, [⟨"room", none, []⟩]⟩,
       st1, .yamlFormatError)
    | some roomText =>
      let p1 := appendUnder xml_parent "properties" (pdefhipNode hipchat roomText)
      let v := parse_version (pluginVersionString plugin_info)
      (appendUnder p1 "publishers" (hippubNode hipchat v st1 roomText),
       st1, .ok)

/-- `HipChat.gen_xml` (lines 104-167).  `data` is `data.get('hipchat')`
(`none` when the key is absent or maps to `None`); the early return fires
when the mapping is falsy or `hipchat.get('enabled', True)` is falsy. -/
def gen_xml (st : HState) (gc : GlobalConfig)
    (plugin_info : List (String × String)) (data : Option HipchatConfig)
    (xml_parent : XmlNode) : XmlNode × HState × GenOutcome :=
  match data with
  | none => (xml_parent, st, .ok)
  | some hipchat =>
    if !pyTruthyConfig hipchat || !(hipchat.enabled.getD true) then
      (xml_parent, st, .ok)
    else
      gen_xml_enabled st gc plugin_info hipchat xml_parent

/-! ### Concrete fixtures for witnesses and counterexamples -/

/-- A well-formed global config: `[hipchat]` with non-blank `authtoken` and
`send-as`, `[jenkins]` with `url`. -/
def gcGood : GlobalConfig :=
  ⟨[("hipchat", [("authtoken", "tok"), ("send-as", "Jenkins")]),
    ("jenkins", [("url", "http://jenkins.example/")])]⟩

/-- A global config whose `[hipchat]` section exists but has no `authtoken`
option. -/
def gcNoToken : GlobalConfig :=
  ⟨[("hipchat", [("send-as", "Jenkins")]), ("jenkins", [("url", "u")])]⟩

/-- A global config whose `[hipchat] authtoken` is the blank string. -/
def gcBlankToken : GlobalConfig :=
  ⟨[("hipchat", [("authtoken", ""), ("send-as", "Jenkins")]),
    ("jenkins", [("url", "u")])]⟩

/-- A global config with no `[hipchat]` section at all. -/
def gcNoSection : GlobalConfig := ⟨[("jenkins", [("url", "u")])]⟩

/-- A fresh job node with no properties/publishers sections yet. -/
def projNode : XmlNode := ⟨"project", none, []⟩

/-- hipchat config: only `rooms` given. -/
def cfgRooms : HipchatConfig :=
  ⟨none, none, some ["room1", "room2"], none, none, none, none, none, none,
   none, []⟩

/-- hipchat config: only the deprecated `room` given. -/
def cfgRoomOnly : HipchatConfig :=
  ⟨none, some "teamroom", none, none, none, none, none, none, none, none, []⟩

/-- hipchat config: BOTH `room` and `rooms` given. -/
def cfgBoth : HipchatConfig :=
  ⟨none, some "solo", some ["a", "b"], none, none, none, none, none, none,
   none, []⟩

/-- hipchat config: enabled, but neither `room` nor `rooms`. -/
def cfgNoRoom : HipchatConfig :=
  ⟨some true, none, none, none, none, none, none, none, none, none, []⟩

/-- hipchat config: the mapping is present but empty (`hipchat: {}` in the
YAML), which is falsy in Python. -/
def cfgEmptyMap : HipchatConfig :=
  ⟨none, none, none, none, none, none, none, none, none, none, []⟩

/-- hipchat config exercising the notify flags: `start-notify` explicitly
false, `notify-success` and `notify-failure` explicitly true,
`notify-not-built` explicitly false, the others absent. -/
def cfgFlags : HipchatConfig :=
  ⟨some true, none, some ["r"], some false, some true, none, some false, none,
   some true, none, []⟩

/-- hipchat config with `enabled: false`. -/
def cfgDisabled : HipchatConfig :=
  ⟨some false, some "teamroom", none, none, none, none, none, none, none,
   none, []⟩

/-- The `HipChat` instance state after a successful load from `gcGood`. -/
def stLoaded : HState :=
  ⟨some "tok", some "http://jenkins.example/", some "Jenkins"⟩

/-! ### Helper lemmas about the XML tree operations -/

theorem findTag_appendIntoFirst_self (l : List XmlNode) (t : String) (c : XmlNode) :
    findTag (appendIntoFirst l t c) t =
      some (match findTag l t with
            | some s => appendChild s c
            | none => ⟨t, none, [c]⟩) := by
  induction l with
  | nil => simp [appendIntoFirst, findTag]
  | cons x xs ih =>
    by_cases hx : x.tag = t
    · simp [appendIntoFirst, hx, findTag, appendChild]
    · simp [appendIntoFirst, hx, findTag, ih]

theorem findTag_appendIntoFirst_ne (l : List XmlNode) (t t' : String) (c : XmlNode)
    (h : t' ≠ t) :
    findTag (appendIntoFirst l t c) t' = findTag l t' := by
  have htt' : ¬ t = t' := fun hc => h hc.symm
  induction l with
  | nil => simp [appendIntoFirst, findTag, htt']
  | cons x xs ih =>
    by_cases hx : x.tag = t
    · simp [appendIntoFirst, hx, findTag, appendChild, htt']
    · by_cases hx' : x.tag = t'
      · simp [appendIntoFirst, hx, findTag, hx', h]
      · simp [appendIntoFirst, hx, findTag, hx', ih]

theorem sectionChildren_appendUnder_self (p : XmlNode) (t : String) (c : XmlNode) :
    sectionChildren (appendUnder p t c) t = sectionChildren p t ++ [c] := by
  unfold sectionChildren appendUnder
  rw [findTag_appendIntoFirst_self]
  cases h : findTag p.children t <;> simp [h, appendChild]

theorem findTag_appendUnder_ne (p : XmlNode) (t t' : String) (c : XmlNode) (h : t' ≠ t) :
    findTag (appendUnder p t c).children t' = findTag p.children t' := by
  unfold appendUnder
  exact findTag_appendIntoFirst_ne _ _ _ _ h

theorem lastChildOfSection_appendUnder_self (p : XmlNode) (t : String) (c : XmlNode) :
    lastChildOfSection (appendUnder p t c) t = some c := by
  unfold lastChildOfSection appendUnder
  rw [findTag_appendIntoFirst_self]
  cases h : findTag p.children t <;> simp [h, appendChild]

theorem getLast?_append_some {α : Type} (l1 : List α) {l2 : List α} {a : α}
    (h : l2.getLast? = some a) : (l1 ++ l2).getLast? = some a := by
  have hne : l2 ≠ [] := by
    intro hc; rw [hc] at h; simp at h
  rw [List.getLast?_append_of_ne_nil l1 hne, h]

/-! ### Helper lemmas about the notify-flag loop -/

theorem findTag_translate_append_ne (v : Option Bool) (tgt : String) (opt : Bool)
    (r : List XmlNode) (t : String) (h : tgt ≠ t) :
    findTag (translate_to_xml v tgt opt ++ r) t = findTag r t := by
  unfold translate_to_xml
  split <;> simp [findTag, h]

theorem findTag_translate_append_self (v : Option Bool) (tgt : String) (opt : Bool)
    (r : List XmlNode) :
    findTag (translate_to_xml v tgt opt ++ r) tgt =
      if (!opt || pyGetBool v) then some ⟨tgt, some (pyBoolStr (pyGetBool v)), []⟩
      else findTag r tgt := by
  unfold translate_to_xml
  split <;> simp_all [findTag]

theorem findTag_translate_ne (v : Option Bool) (tgt : String) (opt : Bool)
    (t : String) (h : tgt ≠ t) :
    findTag (translate_to_xml v tgt opt) t = none := by
  unfold translate_to_xml
  split <;> simp [findTag, h]

theorem notifyFields_startNotification (h : HipchatConfig) :
    findTag (notifyFields h) "startNotification" =
      some ⟨"startNotification", some (pyBoolStr (pyGetBool h.start_notify)), []⟩ := by
  unfold notifyFields
  simp [List.append_assoc, findTag_translate_append_self]

theorem notifyFields_notifySuccess (h : HipchatConfig) :
    findTag (notifyFields h) "notifySuccess" =
      if pyGetBool h.notify_success then some ⟨"notifySuccess", some "true", []⟩
      else none := by
  unfold notifyFields
  simp [List.append_assoc, findTag_translate_append_ne, findTag_translate_append_self,
    findTag_translate_ne]
  split <;> simp_all [pyBoolStr, findTag_translate_append_ne, findTag_translate_ne, findTag]

theorem notifyFields_notifyAborted (h : HipchatConfig) :
    findTag (notifyFields h) "notifyAborted" =
      if pyGetBool h.notify_aborted then some ⟨"notifyAborted", some "true", []⟩
      else none := by
  unfold notifyFields
  simp [List.append_assoc, findTag_translate_append_ne, findTag_translate_append_self,
    findTag_translate_ne]
  split <;> simp_all [pyBoolStr, findTag_translate_append_ne, findTag_translate_ne, findTag]

theorem notifyFields_notifyNotBuilt (h : HipchatConfig) :
    findTag (notifyFields h) "notifyNotBuilt" =
      if pyGetBool h.notify_not_built then some ⟨"notifyNotBuilt", some "true", []⟩
      else none := by
  unfold notifyFields
  simp [List.append_assoc, findTag_translate_append_ne, findTag_translate_append_self,
    findTag_translate_ne]
  split <;> simp_all [pyBoolStr, findTag_translate_append_ne, findTag_translate_ne, findTag]

theorem notifyFields_notifyUnstable (h : HipchatConfig) :
    findTag (notifyFields h) "notifyUnstable" =
      if pyGetBool h.notify_unstable then some ⟨"notifyUnstable", some "true", []⟩
      else none := by
  unfold notifyFields
  simp [List.append_assoc, findTag_translate_append_ne, findTag_translate_append_self,
    findTag_translate_ne]
  split <;> simp_all [pyBoolStr, findTag_translate_append_ne, findTag_translate_ne, findTag]

theorem notifyFields_notifyFailure (h : HipchatConfig) :
    findTag (notifyFields h) "notifyFailure" =
      if pyGetBool h.notify_failure then some ⟨"notifyFailure", some "true", []⟩
      else none := by
  unfold notifyFields
  simp [List.append_assoc, findTag_translate_append_ne, findTag_translate_append_self,
    findTag_translate_ne]
  split <;> simp_all [pyBoolStr, findTag_translate_append_ne, findTag_translate_ne, findTag]

theorem notifyFields_notifyBackToNormal (h : HipchatConfig) :
    findTag (notifyFields h) "notifyBackToNormal" =
      if pyGetBool h.notify_back_to_normal then some ⟨"notifyBackToNormal", some "true", []⟩
      else none := by
  unfold notifyFields
  simp [List.append_assoc, findTag_translate_append_ne, findTag_translate_append_self,
    findTag_translate_ne]
  split <;> rename_i hv <;> simp [translate_to_xml, hv, pyBoolStr, findTag]

/-- The notify-flag loop never emits a field with a tag outside its seven
target names. -/
theorem notifyFields_append_other (h : HipchatConfig) (r : List XmlNode) (t : String)
    (h1 : "startNotification" ≠ t) (h2 : "notifySuccess" ≠ t)
    (h3 : "notifyAborted" ≠ t) (h4 : "notifyNotBuilt" ≠ t)
    (h5 : "notifyUnstable" ≠ t) (h6 : "notifyFailure" ≠ t)
    (h7 : "notifyBackToNormal" ≠ t) :
    findTag (notifyFields h ++ r) t = findTag r t := by
  unfold notifyFields
  simp only [List.append_assoc]
  rw [findTag_translate_append_ne _ _ _ _ _ h1, findTag_translate_append_ne _ _ _ _ _ h2,
    findTag_translate_append_ne _ _ _ _ _ h3, findTag_translate_append_ne _ _ _ _ _ h4,
    findTag_translate_append_ne _ _ _ _ _ h5, findTag_translate_append_ne _ _ _ _ _ h6,
    findTag_translate_append_ne _ _ _ _ _ h7]

/-! ### Helper lemmas about the credential loader -/

theorem load_ok_truthy {st st' : HState} {gc : GlobalConfig}
    (h : load_global_data st gc = .ok st') : pyTruthyOptStr st'.authToken = true := by
  unfold load_global_data at h
  cases h0 : pyTruthyOptStr st.authToken with
  | true =>
    simp [h0] at h
    rw [← h]
    exact h0
  | false =>
    simp [h0] at h
    cases hc : configGet gc "hipchat" "authtoken" with
    | error e => cases e <;> simp [hc] at h
    | ok tok =>
      simp [hc] at h
      by_cases ht : tok = ""
      · simp [ht] at h
      · simp [ht] at h
        cases hj : configGet gc "jenkins" "url" with
        | error e => simp [hj] at h
        | ok url =>
          simp [hj] at h
          cases hs : configGet gc "hipchat" "send-as" with
          | error e => simp [hs] at h
          | ok sa =>
            simp [hs] at h
            rw [← h]
            simp [pyTruthyOptStr, ht]

theorem load_ok_again {st st' : HState} {gc : GlobalConfig}
    (h : load_global_data st gc = .ok st') (gc2 : GlobalConfig) :
    load_global_data st' gc2 = .ok st' := by
  have ht := load_ok_truthy h
  unfold load_global_data
  simp [ht]

/-! ### Shape lemmas for the translator -/

theorem truthy_of_resolve {cfg : HipchatConfig} {rt : String}
    (h : resolveRoom cfg = some rt) : pyTruthyConfig cfg = true := by
  unfold resolveRoom at h
  cases hr : cfg.rooms with
  | some rs => simp [pyTruthyConfig, hr]
  | none =>
    rw [hr] at h
    simp at h
    simp [pyTruthyConfig, h]

theorem resolve_of_spec {cfg : HipchatConfig}
    (h : cfg.rooms.isSome ∨ cfg.room.isSome) : ∃ rt, resolveRoom cfg = some rt := by
  unfold resolveRoom
  rcases h with h | h
  · obtain ⟨rs, hrs⟩ := Option.isSome_iff_exists.mp h
    exact ⟨String.intercalate "," rs, by simp [hrs]⟩
  · obtain ⟨r, hr⟩ := Option.isSome_iff_exists.mp h
    cases hrs : cfg.rooms with
    | some rs => exact ⟨String.intercalate "," rs, rfl⟩
    | none => exact ⟨r, hr⟩

theorem gen_xml_success_shape {st st' : HState} {gc : GlobalConfig}
    {pi : List (String × String)} {cfg : HipchatConfig} (parent : XmlNode) {rt : String}
    (hE : cfg.enabled.getD true = true)
    (hload : load_global_data st gc = .ok st')
    (hres : resolveRoom cfg = some rt) :
    gen_xml st gc pi (some cfg) parent =
      (appendUnder (appendUnder parent "properties" (pdefhipNode cfg rt)) "publishers"
         (hippubNode cfg (parse_version (pluginVersionString pi)) st' rt),
       st', .ok) := by
  have hT := truthy_of_resolve hres
  simp [gen_xml, hT, hE, gen_xml_enabled, hload, hres]

theorem gen_xml_roomerror_shape {st st' : HState} {gc : GlobalConfig}
    {pi : List (String × String)} {cfg : HipchatConfig} (parent : XmlNode)
    (hT : pyTruthyConfig cfg = true) (hE : cfg.enabled.getD true = true)
    (hload : load_global_data st gc = .ok st')
    (hres : resolveRoom cfg = none) :
    gen_xml st gc pi (some cfg) parent =
      (appendUnder parent "properties" ⟨pdefhipTag, none, [⟨"room", none, []⟩]⟩,
       st', .yamlFormatError) := by
  simp [gen_xml, hT, hE, gen_xml_enabled, hload, hres]

theorem gen_xml_fatal_shape {st : HState} {gc : GlobalConfig}
    {pi : List (String × String)} {cfg : HipchatConfig} (parent : XmlNode)
    (hT : pyTruthyConfig cfg = true) (hE : cfg.enabled.getD true = true)
    (hload : load_global_data st gc = .fatalExit) :
    gen_xml st gc pi (some cfg) parent = (parent, st, .fatalExit) := by
  simp [gen_xml, hT, hE, gen_xml_enabled, hload]

theorem lastChildOfSection_appendUnder_ne (p : XmlNode) (t t' : String) (c : XmlNode)
    (h : t' ≠ t) :
    lastChildOfSection (appendUnder p t c) t' = lastChildOfSection p t' := by
  unfold lastChildOfSection
  rw [findTag_appendUnder_ne _ _ _ _ h]

theorem getLast?_two {α : Type} (l : List α) (a b : α) :
    (l ++ [a, b]).getLast? = some b := by
  have h : l ++ [a, b] = (l ++ [a]) ++ [b] := by simp
  rw [h, List.getLast?_concat]

theorem findTag_appendUnder_self_sectionChildren (p : XmlNode) (t : String) (c : XmlNode) :
    ∃ s, findTag (appendUnder p t c).children t = some s ∧
      s.children = sectionChildren p t ++ [c] := by
  unfold appendUnder sectionChildren
  rw [findTag_appendIntoFirst_self]
  cases h : findTag p.children t <;> simp [h, appendChild]

/-! ### Claim theorems -/

/-- C1: for every enabled config that supplies a room specification, the room
text written into the properties subtree (the `room` child of the appended
job-property node) and the room text written into the publisher subtree (the
trailing duplicate `room` child of the appended publisher node) are
identical, and equal the comma-joined `rooms` list when `rooms` is given, or
the single `room` string otherwise. -/
theorem hipchat_C1_room_text (st st' : HState) (gc : GlobalConfig)
    (pi : List (String × String)) (cfg : HipchatConfig) (parent : XmlNode)
    (hE : cfg.enabled.getD true = true)
    (hload : load_global_data st gc = .ok st')
    (hspec : cfg.rooms.isSome ∨ cfg.room.isSome) :
    ∃ rt,
      resolveRoom cfg = some rt ∧
      (∀ rs, cfg.rooms = some rs → rt = String.intercalate "," rs) ∧
      (cfg.rooms = none → cfg.room = some rt) ∧
      ((lastChildOfSection (gen_xml st gc pi (some cfg) parent).1 "properties").bind
        (fun n => n.children.head?)) = some ⟨"room", some rt, []⟩ ∧
      ((lastChildOfSection (gen_xml st gc pi (some cfg) parent).1 "publishers").bind
        (fun n => n.children.getLast?)) = some ⟨"room", some rt, []⟩ := by
  obtain ⟨rt, hres⟩ := resolve_of_spec hspec
  refine ⟨rt, hres, ?_, ?_, ?_, ?_⟩
  · intro rs hrs
    unfold resolveRoom at hres
    rw [hrs] at hres
    simp at hres
    exact hres.symm
  · intro hn
    unfold resolveRoom at hres
    rw [hn] at hres
    simpa using hres
  · rw [gen_xml_success_shape parent hE hload hres]
    simp only []
    rw [lastChildOfSection_appendUnder_ne _ _ _ _ (by decide),
      lastChildOfSection_appendUnder_self]
    simp [pdefhipNode]
  · rw [gen_xml_success_shape parent hE hload hres]
    simp only []
    rw [lastChildOfSection_appendUnder_self]
    simp [hippubNode, getLast?_two]

theorem hipchat_C1_room_text_witness :
    (cfgRooms.enabled.getD true = true) ∧
    load_global_data initState gcGood = LoadResult.ok stLoaded ∧
    (cfgRooms.rooms.isSome ∨ cfgRooms.room.isSome) ∧
    (∃ rt,
      resolveRoom cfgRooms = some rt ∧
      (∀ rs, cfgRooms.rooms = some rs → rt = String.intercalate "," rs) ∧
      (cfgRooms.rooms = none → cfgRooms.room = some rt) ∧
      ((lastChildOfSection
          (gen_xml initState gcGood [("version", "0.1.9")] (some cfgRooms) projNode).1
          "properties").bind (fun n => n.children.head?)) = some ⟨"room", some rt, []⟩ ∧
      ((lastChildOfSection
          (gen_xml initState gcGood [("version", "0.1.9")] (some cfgRooms) projNode).1
          "publishers").bind (fun n => n.children.getLast?)) = some ⟨"room", some rt, []⟩) :=
  ⟨rfl, rfl, Or.inl rfl,
   hipchat_C1_room_text initState stLoaded gcGood [("version", "0.1.9")] cfgRooms
     projNode rfl rfl (Or.inl rfl)⟩

/-- C9: the credential loader is idempotent per translator instance: once an
invocation has succeeded (thereby caching a non-empty token), every further
invocation is a no-op deciding on the cached token alone — it returns the
state unchanged whatever the global config store now contains (it reads
nothing from it). -/
theorem hipchat_C9_loader_idempotent (st st' : HState) (gc gc2 : GlobalConfig)
    (h : load_global_data st gc = .ok st') :
    load_global_data st' gc2 = .ok st' :=
  load_ok_again h gc2

theorem hipchat_C9_loader_idempotent_witness :
    load_global_data initState gcGood = LoadResult.ok stLoaded ∧
    load_global_data stLoaded gcNoSection = LoadResult.ok stLoaded :=
  ⟨rfl, hipchat_C9_loader_idempotent initState stLoaded gcGood gcNoSection rfl⟩

/-- C10: the translator is not idempotent on the output document.  The
`properties` section is reused when it exists (existing children `pre`
preserved, the new property node appended after them), the `publishers`
section is created when absent, and a second call with the same enabled
config on the resulting parent appends duplicate sibling subtrees under both
sections. -/
theorem hipchat_C10_duplicates (st st' : HState) (gc : GlobalConfig)
    (pi : List (String × String)) (cfg : HipchatConfig) (pre : List XmlNode)
    (rt : String)
    (hE : cfg.enabled.getD true = true)
    (hload : load_global_data st gc = .ok st')
    (hres : resolveRoom cfg = some rt) :
    ∃ pd hp,
      pd = pdefhipNode cfg rt ∧
      hp = hippubNode cfg (parse_version (pluginVersionString pi)) st' rt ∧
      gen_xml st gc pi (some cfg) ⟨"project", none, [⟨"properties", none, pre⟩]⟩ =
        (⟨"project", none,
          [⟨"properties", none, pre ++ [pd]⟩, ⟨"publishers", none, [hp]⟩]⟩,
         st', .ok) ∧
      gen_xml st' gc pi (some cfg)
          ⟨"project", none,
           [⟨"properties", none, pre ++ [pd]⟩, ⟨"publishers", none, [hp]⟩]⟩ =
        (⟨"project", none,
          [⟨"properties", none, pre ++ [pd, pd]⟩, ⟨"publishers", none, [hp, hp]⟩]⟩,
         st', .ok) := by
  refine ⟨_, _, rfl, rfl, ?_, ?_⟩
  · rw [gen_xml_success_shape _ hE hload hres]
    simp [appendUnder, appendIntoFirst, appendChild]
  · have hload2 : load_global_data st' gc = .ok st' := load_ok_again hload gc
    rw [gen_xml_success_shape _ hE hload2 hres]
    simp [appendUnder, appendIntoFirst, appendChild]

theorem hipchat_C10_duplicates_witness :
    (cfgRooms.enabled.getD true = true) ∧
    load_global_data initState gcGood = LoadResult.ok stLoaded ∧
    resolveRoom cfgRooms = some "room1,room2" ∧
    (∃ pd hp,
      pd = pdefhipNode cfgRooms "room1,room2" ∧
      hp = hippubNode cfgRooms (parse_version (pluginVersionString [])) stLoaded
        "room1,room2" ∧
      gen_xml initState gcGood [] (some cfgRooms)
          ⟨"project", none, [⟨"properties", none, []⟩]⟩ =
        (⟨"project", none,
          [⟨"properties", none, [] ++ [pd]⟩, ⟨"publishers", none, [hp]⟩]⟩,
         stLoaded, .ok) ∧
      gen_xml stLoaded gcGood [] (some cfgRooms)
          ⟨"project", none,
           [⟨"properties", none, [] ++ [pd]⟩, ⟨"publishers", none, [hp]⟩]⟩ =
        (⟨"project", none,
          [⟨"properties", none, [] ++ [pd, pd]⟩, ⟨"publishers", none, [hp, hp]⟩]⟩,
         stLoaded, .ok)) :=
  ⟨rfl, rfl, rfl,
   hipchat_C10_duplicates initState stLoaded gcGood [] cfgRooms [] "room1,room2"
     rfl rfl rfl⟩

/-- C5: the publisher node receives `buildServerUrl` and `sendAs` (and no
`jenkinsUrl`) exactly when the reported plugin version is at or above the
`0.1.8` baseline, and a `jenkinsUrl` (and neither of the other two)
otherwise. -/
theorem hipchat_C5_version_gate (st st' : HState) (gc : GlobalConfig)
    (pi : List (String × String)) (cfg : HipchatConfig) (parent : XmlNode)
    (hE : cfg.enabled.getD true = true)
    (hload : load_global_data st gc = .ok st')
    (hspec : cfg.rooms.isSome ∨ cfg.room.isSome) :
    ∃ rt,
      resolveRoom cfg = some rt ∧
      lastChildOfSection (gen_xml st gc pi (some cfg) parent).1 "publishers" =
        some (hippubNode cfg (parse_version (pluginVersionString pi)) st' rt) ∧
      (versionGe (parse_version (pluginVersionString pi)) baselineVersion = true →
        hasChildTag (hippubNode cfg (parse_version (pluginVersionString pi)) st' rt)
            "buildServerUrl" = true ∧
        hasChildTag (hippubNode cfg (parse_version (pluginVersionString pi)) st' rt)
            "sendAs" = true ∧
        hasChildTag (hippubNode cfg (parse_version (pluginVersionString pi)) st' rt)
            "jenkinsUrl" = false) ∧
      (versionGe (parse_version (pluginVersionString pi)) baselineVersion = false →
        hasChildTag (hippubNode cfg (parse_version (pluginVersionString pi)) st' rt)
            "jenkinsUrl" = true ∧
        hasChildTag (hippubNode cfg (parse_version (pluginVersionString pi)) st' rt)
            "buildServerUrl" = false ∧
        hasChildTag (hippubNode cfg (parse_version (pluginVersionString pi)) st' rt)
            "sendAs" = false) := by
  obtain ⟨rt, hres⟩ := resolve_of_spec hspec
  refine ⟨rt, hres, ?_, ?_, ?_⟩
  · rw [gen_xml_success_shape parent hE hload hres]
    simp only []
    exact lastChildOfSection_appendUnder_self _ _ _
  · intro hv
    unfold hasChildTag hippubNode
    simp only [List.append_assoc]
    rw [notifyFields_append_other _ _ _ (by decide) (by decide) (by decide) (by decide)
        (by decide) (by decide) (by decide),
      notifyFields_append_other _ _ _ (by decide) (by decide) (by decide) (by decide)
        (by decide) (by decide) (by decide),
      notifyFields_append_other _ _ _ (by decide) (by decide) (by decide) (by decide)
        (by decide) (by decide) (by decide)]
    simp [versionFields, hv, findTag]
  · intro hv
    unfold hasChildTag hippubNode
    simp only [List.append_assoc]
    rw [notifyFields_append_other _ _ _ (by decide) (by decide) (by decide) (by decide)
        (by decide) (by decide) (by decide),
      notifyFields_append_other _ _ _ (by decide) (by decide) (by decide) (by decide)
        (by decide) (by decide) (by decide),
      notifyFields_append_other _ _ _ (by decide) (by decide) (by decide) (by decide)
        (by decide) (by decide) (by decide)]
    simp [versionFields, hv, findTag]

theorem hipchat_C5_version_gate_witness :
    (∃ rt,
      resolveRoom cfgRooms = some rt ∧
      lastChildOfSection
          (gen_xml initState gcGood [("version", "0.1.9")] (some cfgRooms) projNode).1
          "publishers" =
        some (hippubNode cfgRooms
          (parse_version (pluginVersionString [("version", "0.1.9")])) stLoaded rt) ∧
      (versionGe (parse_version (pluginVersionString [("version", "0.1.9")]))
          baselineVersion = true →
        hasChildTag (hippubNode cfgRooms
            (parse_version (pluginVersionString [("version", "0.1.9")])) stLoaded rt)
            "buildServerUrl" = true ∧
        hasChildTag (hippubNode cfgRooms
            (parse_version (pluginVersionString [("version", "0.1.9")])) stLoaded rt)
            "sendAs" = true ∧
        hasChildTag (hippubNode cfgRooms
            (parse_version (pluginVersionString [("version", "0.1.9")])) stLoaded rt)
            "jenkinsUrl" = false) ∧
      (versionGe (parse_version (pluginVersionString [("version", "0.1.9")]))
          baselineVersion = false →
        hasChildTag (hippubNode cfgRooms
            (parse_version (pluginVersionString [("version", "0.1.9")])) stLoaded rt)
            "jenkinsUrl" = true ∧
        hasChildTag (hippubNode cfgRooms
            (parse_version (pluginVersionString [("version", "0.1.9")])) stLoaded rt)
            "buildServerUrl" = false ∧
        hasChildTag (hippubNode cfgRooms
            (parse_version (pluginVersionString [("version", "0.1.9")])) stLoaded rt)
            "sendAs" = false)) ∧
    (∃ rt,
      resolveRoom cfgRooms = some rt ∧
      lastChildOfSection
          (gen_xml initState gcGood [("version", "0.1.2")] (some cfgRooms) projNode).1
          "publishers" =
        some (hippubNode cfgRooms
          (parse_version (pluginVersionString [("version", "0.1.2")])) stLoaded rt) ∧
      (versionGe (parse_version (pluginVersionString [("version", "0.1.2")]))
          baselineVersion = true →
        hasChildTag (hippubNode cfgRooms
            (parse_version (pluginVersionString [("version", "0.1.2")])) stLoaded rt)
            "buildServerUrl" = true ∧
        hasChildTag (hippubNode cfgRooms
            (parse_version (pluginVersionString [("version", "0.1.2")])) stLoaded rt)
            "sendAs" = true ∧
        hasChildTag (hippubNode cfgRooms
            (parse_version (pluginVersionString [("version", "0.1.2")])) stLoaded rt)
            "jenkinsUrl" = false) ∧
      (versionGe (parse_version (pluginVersionString [("version", "0.1.2")]))
          baselineVersion = false →
        hasChildTag (hippubNode cfgRooms
            (parse_version (pluginVersionString [("version", "0.1.2")])) stLoaded rt)
            "jenkinsUrl" = true ∧
        hasChildTag (hippubNode cfgRooms
            (parse_version (pluginVersionString [("version", "0.1.2")])) stLoaded rt)
            "buildServerUrl" = false ∧
        hasChildTag (hippubNode cfgRooms
            (parse_version (pluginVersionString [("version", "0.1.2")])) stLoaded rt)
            "sendAs" = false)) ∧
    versionGe (parse_version (pluginVersionString [("version", "0.1.9")]))
        baselineVersion = true ∧
    versionGe (parse_version (pluginVersionString [("version", "0.1.2")]))
        baselineVersion = false :=
  ⟨hipchat_C5_version_gate initState stLoaded gcGood [("version", "0.1.9")] cfgRooms
     projNode rfl rfl (Or.inl rfl),
   hipchat_C5_version_gate initState stLoaded gcGood [("version", "0.1.2")] cfgRooms
     projNode rfl rfl (Or.inl rfl),
   by decide, by decide⟩

theorem findTag_append_general (l1 l2 : List XmlNode) (t : String) :
    findTag (l1 ++ l2) t =
      match findTag l1 t with
      | some x => some x
      | none => findTag l2 t := by
  induction l1 with
  | nil => simp [findTag]
  | cons x xs ih =>
    by_cases hx : x.tag = t <;> simp [findTag, hx, ih]

theorem findTag_hippubRest_none (v : List Nat) (st : HState) (rt : String)
    (t : String) (h1 : t ≠ "buildServerUrl") (h2 : t ≠ "sendAs")
    (h3 : t ≠ "jenkinsUrl") (h4 : t ≠ "authToken") (h5 : t ≠ "room") :
    findTag (versionFields v st ++
      [⟨"authToken", st.authToken, []⟩, ⟨"room", some rt, []⟩]) t = none := by
  unfold versionFields
  split <;>
    simp [findTag, Ne.symm h1, Ne.symm h2, Ne.symm h3, Ne.symm h4, Ne.symm h5]

theorem findTag_hippubNode_eq_notify (cfg : HipchatConfig) (v : List Nat)
    (st : HState) (rt : String) (t : String) (h1 : t ≠ "buildServerUrl")
    (h2 : t ≠ "sendAs") (h3 : t ≠ "jenkinsUrl") (h4 : t ≠ "authToken")
    (h5 : t ≠ "room") :
    findTag (hippubNode cfg v st rt).children t = findTag (notifyFields cfg) t := by
  unfold hippubNode
  simp only [List.append_assoc]
  rw [findTag_append_general]
  cases hf : findTag (notifyFields cfg) t with
  | some x => simp
  | none => simp [findTag_hippubRest_none v st rt t h1 h2 h3 h4 h5]

theorem findTag_pdefhipNode_eq_notify (cfg : HipchatConfig) (rt : String)
    (t : String) (h : t ≠ "room") :
    findTag (pdefhipNode cfg rt).children t = findTag (notifyFields cfg) t := by
  unfold pdefhipNode
  simp [findTag, Ne.symm h]

/-- C2 as stated is FALSE: for the enabled config `cfgRooms` (a room list and
no notify flags at all), the translator writes a `startNotification` field
with text `"false"` into both nodes although no `start-notify` value is
present in the input, and writes none of the other six notify fields
although the claim says they are always written. -/
theorem hipchat_C2_counterexample :
    ((lastChildOfSection
        (gen_xml initState gcGood [("version", "0.1.9")] (some cfgRooms) projNode).1
        "properties").map (fun n => findTag n.children "startNotification")) =
      some (some ⟨"startNotification", some "false", []⟩) ∧
    ((lastChildOfSection
        (gen_xml initState gcGood [("version", "0.1.9")] (some cfgRooms) projNode).1
        "properties").map (fun n => findTag n.children "notifySuccess")) =
      some none ∧
    ((lastChildOfSection
        (gen_xml initState gcGood [("version", "0.1.9")] (some cfgRooms) projNode).1
        "publishers").map (fun n => findTag n.children "startNotification")) =
      some (some ⟨"startNotification", some "false", []⟩) ∧
    ((lastChildOfSection
        (gen_xml initState gcGood [("version", "0.1.9")] (some cfgRooms) projNode).1
        "publishers").map (fun n => findTag n.children "notifySuccess")) =
      some none :=
  ⟨rfl, rfl, rfl, rfl⟩

/-- C2 (amended): for every enabled config with a room specification, the
`startNotification` field is ALWAYS written — to both the properties node
and the publisher node — as the lower-cased string `"true"`/`"false"`,
defaulting to false when `start-notify` is absent; each of the other six
notify-* flags is written (to both nodes) only when its value is explicitly
present and true, in which case the written text is `"true"`. -/
theorem hipchat_C2_notify_flags (st st' : HState) (gc : GlobalConfig)
    (pi : List (String × String)) (cfg : HipchatConfig) (parent : XmlNode)
    (hE : cfg.enabled.getD true = true)
    (hload : load_global_data st gc = .ok st')
    (hspec : cfg.rooms.isSome ∨ cfg.room.isSome) :
    ∃ rt,
      resolveRoom cfg = some rt ∧
      lastChildOfSection (gen_xml st gc pi (some cfg) parent).1 "properties" =
        some (pdefhipNode cfg rt) ∧
      lastChildOfSection (gen_xml st gc pi (some cfg) parent).1 "publishers" =
        some (hippubNode cfg (parse_version (pluginVersionString pi)) st' rt) ∧
      (∀ n, (n = pdefhipNode cfg rt ∨
             n = hippubNode cfg (parse_version (pluginVersionString pi)) st' rt) →
        findTag n.children "startNotification" =
          some ⟨"startNotification", some (pyBoolStr (pyGetBool cfg.start_notify)), []⟩ ∧
        findTag n.children "notifySuccess" =
          (if pyGetBool cfg.notify_success then
            some ⟨"notifySuccess", some "true", []⟩ else none) ∧
        findTag n.children "notifyAborted" =
          (if pyGetBool cfg.notify_aborted then
            some ⟨"notifyAborted", some "true", []⟩ else none) ∧
        findTag n.children "notifyNotBuilt" =
          (if pyGetBool cfg.notify_not_built then
            some ⟨"notifyNotBuilt", some "true", []⟩ else none) ∧
        findTag n.children "notifyUnstable" =
          (if pyGetBool cfg.notify_unstable then
            some ⟨"notifyUnstable", some "true", []⟩ else none) ∧
        findTag n.children "notifyFailure" =
          (if pyGetBool cfg.notify_failure then
            some ⟨"notifyFailure", some "true", []⟩ else none) ∧
        findTag n.children "notifyBackToNormal" =
          (if pyGetBool cfg.notify_back_to_normal then
            some ⟨"notifyBackToNormal", some "true", []⟩ else none)) := by
  obtain ⟨rt, hres⟩ := resolve_of_spec hspec
  refine ⟨rt, hres, ?_, ?_, ?_⟩
  · rw [gen_xml_success_shape parent hE hload hres]
    simp only []
    rw [lastChildOfSection_appendUnder_ne _ _ _ _ (by decide),
      lastChildOfSection_appendUnder_self]
  · rw [gen_xml_success_shape parent hE hload hres]
    simp only []
    exact lastChildOfSection_appendUnder_self _ _ _
  · rintro n (rfl | rfl)
    · rw [findTag_pdefhipNode_eq_notify _ _ _ (by decide),
        findTag_pdefhipNode_eq_notify _ _ _ (by decide),
        findTag_pdefhipNode_eq_notify _ _ _ (by decide),
        findTag_pdefhipNode_eq_notify _ _ _ (by decide),
        findTag_pdefhipNode_eq_notify _ _ _ (by decide),
        findTag_pdefhipNode_eq_notify _ _ _ (by decide),
        findTag_pdefhipNode_eq_notify _ _ _ (by decide)]
      exact ⟨notifyFields_startNotification cfg, notifyFields_notifySuccess cfg,
        notifyFields_notifyAborted cfg, notifyFields_notifyNotBuilt cfg,
        notifyFields_notifyUnstable cfg, notifyFields_notifyFailure cfg,
        notifyFields_notifyBackToNormal cfg⟩
    · rw [findTag_hippubNode_eq_notify _ _ _ _ _ (by decide) (by decide) (by decide)
          (by decide) (by decide),
        findTag_hippubNode_eq_notify _ _ _ _ _ (by decide) (by decide) (by decide)
          (by decide) (by decide),
        findTag_hippubNode_eq_notify _ _ _ _ _ (by decide) (by decide) (by decide)
          (by decide) (by decide),
        findTag_hippubNode_eq_notify _ _ _ _ _ (by decide) (by decide) (by decide)
          (by decide) (by decide),
        findTag_hippubNode_eq_notify _ _ _ _ _ (by decide) (by decide) (by decide)
          (by decide) (by decide),
        findTag_hippubNode_eq_notify _ _ _ _ _ (by decide) (by decide) (by decide)
          (by decide) (by decide),
        findTag_hippubNode_eq_notify _ _ _ _ _ (by decide) (by decide) (by decide)
          (by decide) (by decide)]
      exact ⟨notifyFields_startNotification cfg, notifyFields_notifySuccess cfg,
        notifyFields_notifyAborted cfg, notifyFields_notifyNotBuilt cfg,
        notifyFields_notifyUnstable cfg, notifyFields_notifyFailure cfg,
        notifyFields_notifyBackToNormal cfg⟩

theorem hipchat_C2_notify_flags_witness :
    (cfgFlags.enabled.getD true = true) ∧
    load_global_data initState gcGood = LoadResult.ok stLoaded ∧
    (cfgFlags.rooms.isSome ∨ cfgFlags.room.isSome) ∧
    (∃ rt,
      resolveRoom cfgFlags = some rt ∧
      lastChildOfSection (gen_xml initState gcGood [] (some cfgFlags) projNode).1
          "properties" = some (pdefhipNode cfgFlags rt) ∧
      lastChildOfSection (gen_xml initState gcGood [] (some cfgFlags) projNode).1
          "publishers" =
        some (hippubNode cfgFlags (parse_version (pluginVersionString [])) stLoaded rt) ∧
      (∀ n, (n = pdefhipNode cfgFlags rt ∨
             n = hippubNode cfgFlags (parse_version (pluginVersionString [])) stLoaded rt) →
        findTag n.children "startNotification" =
          some ⟨"startNotification", some (pyBoolStr (pyGetBool cfgFlags.start_notify)), []⟩ ∧
        findTag n.children "notifySuccess" =
          (if pyGetBool cfgFlags.notify_success then
            some ⟨"notifySuccess", some "true", []⟩ else none) ∧
        findTag n.children "notifyAborted" =
          (if pyGetBool cfgFlags.notify_aborted then
            some ⟨"notifyAborted", some "true", []⟩ else none) ∧
        findTag n.children "notifyNotBuilt" =
          (if pyGetBool cfgFlags.notify_not_built then
            some ⟨"notifyNotBuilt", some "true", []⟩ else none) ∧
        findTag n.children "notifyUnstable" =
          (if pyGetBool cfgFlags.notify_unstable then
            some ⟨"notifyUnstable", some "true", []⟩ else none) ∧
        findTag n.children "notifyFailure" =
          (if pyGetBool cfgFlags.notify_failure then
            some ⟨"notifyFailure", some "true", []⟩ else none) ∧
        findTag n.children "notifyBackToNormal" =
          (if pyGetBool cfgFlags.notify_back_to_normal then
            some ⟨"notifyBackToNormal", some "true", []⟩ else none))) :=
  ⟨rfl, rfl, Or.inl rfl,
   hipchat_C2_notify_flags initState stLoaded gcGood [] cfgFlags projNode rfl rfl
     (Or.inl rfl)⟩

/-- C3 as stated is FALSE: for the enabled config `cfgNoRoom` (neither
`room` nor `rooms`), the translation does fail with the format error, but
the output document is NOT unchanged: a job-property node (holding an empty
`room` child) has been appended under the freshly created `properties`
section of the previously childless parent before the error was raised. -/
theorem hipchat_C3_counterexample :
    (gen_xml initState gcGood [] (some cfgNoRoom) projNode).2.2 =
      GenOutcome.yamlFormatError ∧
    sectionChildren (gen_xml initState gcGood [] (some cfgNoRoom) projNode).1
        "properties" = [⟨pdefhipTag, none, [⟨"room", none, []⟩]⟩] ∧
    projNode.children = [] :=
  ⟨rfl, rfl, rfl⟩

/-- C3 (amended): for every enabled config with neither `room` nor `rooms`,
the translator fails with the typed format error, propagated to the caller;
the publishers section is untouched, but a job-property node containing an
empty `room` element has already been appended to the properties section
when the error is raised (the in-place mutations preceding the raise are not
rolled back). -/
theorem hipchat_C3_roomerror (st st' : HState) (gc : GlobalConfig)
    (pi : List (String × String)) (cfg : HipchatConfig) (parent : XmlNode)
    (hT : pyTruthyConfig cfg = true) (hE : cfg.enabled.getD true = true)
    (hload : load_global_data st gc = .ok st')
    (hrooms : cfg.rooms = none) (hroom : cfg.room = none) :
    (gen_xml st gc pi (some cfg) parent).2.2 = GenOutcome.yamlFormatError ∧
    sectionChildren (gen_xml st gc pi (some cfg) parent).1 "properties" =
      sectionChildren parent "properties" ++
        [⟨pdefhipTag, none, [⟨"room", none, []⟩]⟩] ∧
    findTag (gen_xml st gc pi (some cfg) parent).1.children "publishers" =
      findTag parent.children "publishers" := by
  have hres : resolveRoom cfg = none := by
    simp [resolveRoom, hrooms, hroom]
  rw [gen_xml_roomerror_shape parent hT hE hload hres]
  refine ⟨rfl, ?_, ?_⟩
  · exact sectionChildren_appendUnder_self parent "properties" _
  · exact findTag_appendUnder_ne parent "properties" "publishers" _ (by decide)

theorem hipchat_C3_roomerror_witness :
    (pyTruthyConfig cfgNoRoom = true) ∧
    (cfgNoRoom.enabled.getD true = true) ∧
    load_global_data initState gcGood = LoadResult.ok stLoaded ∧
    cfgNoRoom.rooms = none ∧ cfgNoRoom.room = none ∧
    ((gen_xml initState gcGood [] (some cfgNoRoom) projNode).2.2 =
      GenOutcome.yamlFormatError ∧
    sectionChildren (gen_xml initState gcGood [] (some cfgNoRoom) projNode).1
        "properties" =
      sectionChildren projNode "properties" ++
        [⟨pdefhipTag, none, [⟨"room", none, []⟩]⟩] ∧
    findTag (gen_xml initState gcGood [] (some cfgNoRoom) projNode).1.children
        "publishers" = findTag projNode.children "publishers") :=
  ⟨rfl, rfl, rfl, rfl, rfl,
   hipchat_C3_roomerror initState stLoaded gcGood [] cfgNoRoom projNode rfl rfl rfl
     rfl rfl⟩

/-- C4 as stated is FALSE: for the enabled config `cfgBoth` (BOTH `room` and
`rooms` present), the translator does NOT raise a format error — the
translation succeeds, with the `rooms` list taking precedence (room text
`"a,b"`, not `"solo"`). -/
theorem hipchat_C4_counterexample :
    (gen_xml initState gcGood [] (some cfgBoth) projNode).2.2 = GenOutcome.ok ∧
    ((lastChildOfSection (gen_xml initState gcGood [] (some cfgBoth) projNode).1
        "properties").bind (fun n => n.children.head?)) =
      some ⟨"room", some "a,b", []⟩ :=
  ⟨rfl, rfl⟩

/-- C4 (amended): for every enabled config, AT LEAST one of `room`/`rooms`
must be present: the translator raises the format error exactly when neither
is present; when both are present this is not an error, and `rooms` takes
precedence (the emitted room text is the comma-joined list). -/
theorem hipchat_C4_room_requirement (st st' : HState) (gc : GlobalConfig)
    (pi : List (String × String)) (cfg : HipchatConfig) (parent : XmlNode)
    (hT : pyTruthyConfig cfg = true) (hE : cfg.enabled.getD true = true)
    (hload : load_global_data st gc = .ok st') :
    ((gen_xml st gc pi (some cfg) parent).2.2 = GenOutcome.yamlFormatError ↔
      (cfg.rooms = none ∧ cfg.room = none)) ∧
    (∀ rs r, cfg.rooms = some rs → cfg.room = some r →
      (gen_xml st gc pi (some cfg) parent).2.2 = GenOutcome.ok ∧
      ((lastChildOfSection (gen_xml st gc pi (some cfg) parent).1
          "properties").bind (fun n => n.children.head?)) =
        some ⟨"room", some (String.intercalate "," rs), []⟩) := by
  cases hrooms : cfg.rooms with
  | some rs =>
    have hres : resolveRoom cfg = some (String.intercalate "," rs) := by
      simp [resolveRoom, hrooms]
    rw [gen_xml_success_shape parent hE hload hres]
    constructor
    · simp [hrooms]
    · intro rs' r hrs' hr
      injection hrs' with hrs'
      subst hrs'
      refine ⟨rfl, ?_⟩
      simp only []
      rw [lastChildOfSection_appendUnder_ne _ _ _ _ (by decide),
        lastChildOfSection_appendUnder_self]
      simp [pdefhipNode]
  | none =>
    cases hroom : cfg.room with
    | some r =>
      have hres : resolveRoom cfg = some r := by
        simp [resolveRoom, hrooms, hroom]
      rw [gen_xml_success_shape parent hE hload hres]
      constructor
      · simp [hroom]
      · intro rs' r' hrs' _
        exact absurd hrs' (by simp)
    | none =>
      have hres : resolveRoom cfg = none := by
        simp [resolveRoom, hrooms, hroom]
      rw [gen_xml_roomerror_shape parent hT hE hload hres]
      constructor
      · simp [hrooms, hroom]
      · intro rs' r' hrs' _
        exact absurd hrs' (by simp)

theorem hipchat_C4_room_requirement_witness :
    (pyTruthyConfig cfgBoth = true) ∧
    (cfgBoth.enabled.getD true = true) ∧
    load_global_data initState gcGood = LoadResult.ok stLoaded ∧
    (((gen_xml initState gcGood [] (some cfgBoth) projNode).2.2 =
        GenOutcome.yamlFormatError ↔
      (cfgBoth.rooms = none ∧ cfgBoth.room = none)) ∧
    (∀ rs r, cfgBoth.rooms = some rs → cfgBoth.room = some r →
      (gen_xml initState gcGood [] (some cfgBoth) projNode).2.2 = GenOutcome.ok ∧
      ((lastChildOfSection (gen_xml initState gcGood [] (some cfgBoth) projNode).1
          "properties").bind (fun n => n.children.head?)) =
        some ⟨"room", some (String.intercalate "," rs), []⟩)) :=
  ⟨rfl, rfl, rfl,
   hipchat_C4_room_requirement initState stLoaded gcGood [] cfgBoth projNode rfl rfl
     rfl⟩

/-- C6: the source comment (lines 165-166) says the redundant default-room
field of the publisher is left empty, but line 167 writes `room.text` into
it.  Evaluating the translator at `cfgRoomOnly` (`room: "teamroom"`): the
publisher's trailing duplicate `room` field carries `"teamroom"` (not the
empty string), while the cached `authToken` is written as the comment and
claim describe. -/
theorem hipchat_C6_pub_room_eval :
    ((lastChildOfSection (gen_xml initState gcGood [] (some cfgRoomOnly) projNode).1
        "publishers").bind (fun n => n.children.getLast?)) =
      some ⟨"room", some "teamroom", []⟩ ∧
    ((lastChildOfSection (gen_xml initState gcGood [] (some cfgRoomOnly) projNode).1
        "publishers").bind (fun n => findTag n.children "authToken")) =
      some ⟨"authToken", some "tok", []⟩ ∧
    ¬ (((lastChildOfSection (gen_xml initState gcGood [] (some cfgRoomOnly) projNode).1
        "publishers").bind (fun n => n.children.getLast?)).map XmlNode.text =
      some (some "")) :=
  ⟨rfl, rfl, by decide⟩

/-- C7 as stated is FALSE for a MISSING token: when the `[hipchat]` section
exists but has no `authtoken` option, `ConfigParser.get` raises
`NoOptionError`, which the `except` clause (catching only `NoSectionError`
and the blank-token `JenkinsJobsException`) does NOT catch — the loader
propagates a recoverable exception instead of terminating the process. -/
theorem hipchat_C7_counterexample :
    load_global_data initState gcNoToken =
      LoadResult.uncaught CPError.noOption initState ∧
    load_global_data initState gcNoToken ≠ LoadResult.fatalExit :=
  ⟨rfl, by decide⟩

/-- C7 (amended): with no token cached yet, the loader terminates the
process (`sys.exit(1)`) when the credentials section is absent or the token
is the empty string; when the section exists but the token option is
missing, a `NoOptionError` escapes as an uncaught exception instead.  On the
fatal exit the translator has performed no XML mutation (the parent node is
returned unchanged). -/
theorem hipchat_C7_credentials (st : HState) (gc : GlobalConfig)
    (hnt : pyTruthyOptStr st.authToken = false) :
    (configGet gc "hipchat" "authtoken" = Except.error CPError.noSection →
      load_global_data st gc = LoadResult.fatalExit) ∧
    (configGet gc "hipchat" "authtoken" = Except.ok "" →
      load_global_data st gc = LoadResult.fatalExit) ∧
    (configGet gc "hipchat" "authtoken" = Except.error CPError.noOption →
      load_global_data st gc = LoadResult.uncaught CPError.noOption st) ∧
    (∀ pi cfg parent, pyTruthyConfig cfg = true → cfg.enabled.getD true = true →
      load_global_data st gc = LoadResult.fatalExit →
      gen_xml st gc pi (some cfg) parent = (parent, st, GenOutcome.fatalExit)) := by
  refine ⟨?_, ?_, ?_, ?_⟩
  · intro hc
    unfold load_global_data
    simp [hnt, hc]
  · intro hc
    unfold load_global_data
    simp [hnt, hc]
  · intro hc
    unfold load_global_data
    simp [hnt, hc]
  · intro pi cfg parent hT hE hf
    exact gen_xml_fatal_shape parent hT hE hf

theorem hipchat_C7_credentials_witness :
    (pyTruthyOptStr initState.authToken = false) ∧
    configGet gcNoSection "hipchat" "authtoken" = Except.error CPError.noSection ∧
    load_global_data initState gcNoSection = LoadResult.fatalExit ∧
    configGet gcBlankToken "hipchat" "authtoken" = Except.ok "" ∧
    load_global_data initState gcBlankToken = LoadResult.fatalExit ∧
    configGet gcNoToken "hipchat" "authtoken" = Except.error CPError.noOption ∧
    load_global_data initState gcNoToken =
      LoadResult.uncaught CPError.noOption initState ∧
    gen_xml initState gcBlankToken [] (some cfgRoomOnly) projNode =
      (projNode, initState, GenOutcome.fatalExit) :=
  ⟨rfl, rfl,
   (hipchat_C7_credentials initState gcNoSection rfl).1 rfl,
   rfl,
   (hipchat_C7_credentials initState gcBlankToken rfl).2.1 rfl,
   rfl,
   (hipchat_C7_credentials initState gcNoToken rfl).2.2.1 rfl,
   (hipchat_C7_credentials initState gcBlankToken rfl).2.2.2 [] cfgRoomOnly projNode
     rfl rfl ((hipchat_C7_credentials initState gcBlankToken rfl).2.1 rfl)⟩

/-- C8 as stated is FALSE for a present-but-EMPTY mapping: `hipchat: {}` is
a present mapping with `enabled` unspecified, yet the translator does
nothing (an empty dict is falsy in Python, so `not hipchat` fires the early
return), while proceeding would have raised the room format error and
mutated the document. -/
theorem hipchat_C8_counterexample :
    gen_xml initState gcGood [] (some cfgEmptyMap) projNode =
      (projNode, initState, GenOutcome.ok) ∧
    (gen_xml_enabled initState gcGood [] cfgEmptyMap projNode).2.2 =
      GenOutcome.yamlFormatError :=
  ⟨rfl, rfl⟩

/-- C8 (amended): the translator does nothing — the parent node, instance
state and outcome are untouched — when the `hipchat` mapping is absent, when
it is present but empty (falsy), or when `enabled` is explicitly false; when
the mapping is present, non-empty, and `enabled` is unspecified, enabled
defaults to true and translation proceeds into the post-gate body. -/
theorem hipchat_C8_enabled_gate (st : HState) (gc : GlobalConfig)
    (pi : List (String × String)) (parent : XmlNode) :
    gen_xml st gc pi none parent = (parent, st, GenOutcome.ok) ∧
    (∀ cfg, cfg.enabled = some false →
      gen_xml st gc pi (some cfg) parent = (parent, st, GenOutcome.ok)) ∧
    (∀ cfg, pyTruthyConfig cfg = false →
      gen_xml st gc pi (some cfg) parent = (parent, st, GenOutcome.ok)) ∧
    (∀ cfg, pyTruthyConfig cfg = true → cfg.enabled = none →
      gen_xml st gc pi (some cfg) parent = gen_xml_enabled st gc pi cfg parent) := by
  refine ⟨rfl, ?_, ?_, ?_⟩
  · intro cfg hf
    simp [gen_xml, hf]
  · intro cfg hf
    simp [gen_xml, hf]
  · intro cfg hT hen
    simp [gen_xml, hT, hen]

theorem hipchat_C8_enabled_gate_witness :
    gen_xml initState gcGood [] none projNode =
      (projNode, initState, GenOutcome.ok) ∧
    (cfgDisabled.enabled = some false) ∧
    gen_xml initState gcGood [] (some cfgDisabled) projNode =
      (projNode, initState, GenOutcome.ok) ∧
    (pyTruthyConfig cfgRooms = true) ∧
    (cfgRooms.enabled = none) ∧
    gen_xml initState gcGood [] (some cfgRooms) projNode =
      gen_xml_enabled initState gcGood [] cfgRooms projNode :=
  ⟨(hipchat_C8_enabled_gate initState gcGood [] projNode).1,
   rfl,
   (hipchat_C8_enabled_gate initState gcGood [] projNode).2.1 cfgDisabled rfl,
   rfl, rfl,
   (hipchat_C8_enabled_gate initState gcGood [] projNode).2.2.2 cfgRooms rfl rfl⟩
